import Mathlib

/-
  Verification of the Scrappey Rust example client
  (src/examples/rust/src/main.rs) against its design specification.

  The embedding models:
  - JSON values (serde_json::Value) as an inductive `Json`;
  - the payload construction of `scrappey_request` (lines 64-65):
    `data.as_object().cloned().unwrap_or_default()` followed by
    `payload.insert("cmd", json!(cmd))`;
  - the HTTP request construction (lines 67-71): POST to
    `<api_url>?key=<api_key>` with a Content-Type header and JSON body;
  - serde deserialization of `Solution` and `ScrappeyResponse`
    (lines 28-53): every field optional, absent or null maps to none,
    unknown keys ignored, type mismatch is a decode failure;
  - the environment read of `get_api_key` (lines 19-21), with an explicit
    trace of which environment variables each call reads;
  - the transport as an oracle `HttpRequest -> Except String (Option Json)`
    where a transport-level failure (connection refused, timeout expiry)
    is `Except.error msg` and a body that is not valid JSON is `ok none`;
  - the session flow `session_example` (lines 111-158) with the list of
    requests it hands to the transport.
-/

namespace Scrappey

/-- JSON values, modelling serde_json::Value. Objects are association
lists of string keys; serde_json maps have unique keys, and all
observations below go through key lookup. Numbers are integers, which
covers every numeric field the client decodes (i32). -/
inductive Json where
  | null : Json
  | bool (b : Bool) : Json
  | num (n : Int) : Json
  | str (s : String) : Json
  | arr (elems : List Json) : Json
  | obj (fields : List (String × Json)) : Json

/-- Rust `Value::as_object`: some fields exactly when the value is an
object. -/
def Json.asObject : Json → Option (List (String × Json))
  | .obj fields => some fields
  | _ => none

/-- Map insertion (serde_json::Map::insert): replace the binding of the
key if present, otherwise add it. -/
def insertKey : List (String × Json) → String → Json → List (String × Json)
  | [], k, v => [(k, v)]
  | (k0, v0) :: rest, k, v =>
      if k0 == k then (k, v) :: rest else (k0, v0) :: insertKey rest k v

/-- Lines 64-65 of main.rs: the request body of `scrappey_request` is the
caller parameters (as a map, or empty when `data` is not an object) with
`cmd` inserted last. -/
def build_payload (cmd : String) (data : Json) : List (String × Json) :=
  insertKey ((Json.asObject data).getD []) "cmd" (Json.str cmd)

theorem lookup_insertKey_self (l : List (String × Json)) (k : String) (v : Json) :
    (insertKey l k v).lookup k = some v := by
  induction l with
  | nil => simp [insertKey, List.lookup]
  | cons hd tl ih =>
      obtain ⟨k0, v0⟩ := hd
      by_cases h : k0 = k
      · subst h
        simp [insertKey, List.lookup]
      · have hb : (k0 == k) = false := by
          simp [h]
        have hb2 : (k == k0) = false := by
          simp [Ne.symm h]
        simp [insertKey, List.lookup, hb, hb2, ih]

theorem lookup_insertKey_ne (l : List (String × Json)) (k k1 : String) (v : Json)
    (h : k1 ≠ k) : (insertKey l k v).lookup k1 = l.lookup k1 := by
  induction l with
  | nil =>
      have hb : (k1 == k) = false := by simp [h]
      simp [insertKey, List.lookup, hb]
  | cons hd tl ih =>
      obtain ⟨k0, v0⟩ := hd
      by_cases h0 : k0 = k
      · subst h0
        have hb : (k1 == k0) = false := by simp [h]
        simp [insertKey, List.lookup, hb]
      · have hb : (k0 == k) = false := by simp [h0]
        by_cases h1 : k1 = k0
        · subst h1
          simp [insertKey, List.lookup, hb]
        · have hb1 : (k1 == k0) = false := by simp [h1]
          simp [insertKey, List.lookup, hb, hb1, ih]

/-- Claim C1: the body built by scrappey_request contains `cmd` mapped to the
command string, and every caller parameter key other than `cmd` keeps its
value. -/
theorem build_payload_cmd_and_params (cmd : String) (fields : List (String × Json)) :
    (build_payload cmd (Json.obj fields)).lookup "cmd" = some (Json.str cmd) ∧
    ∀ k : String, k ≠ "cmd" →
      (build_payload cmd (Json.obj fields)).lookup k = fields.lookup k := by
  constructor
  · simp [build_payload, Json.asObject, lookup_insertKey_self]
  · intro k hk
    simp [build_payload, Json.asObject, lookup_insertKey_ne _ _ _ _ hk]

/-- Witness for C1 at a concrete command and parameter map. -/
theorem build_payload_cmd_and_params_witness :
    (build_payload "request.get" (Json.obj [("url", Json.str "https://httpbin.org/get")])).lookup "cmd"
      = some (Json.str "request.get") ∧
    (build_payload "request.get" (Json.obj [("url", Json.str "https://httpbin.org/get")])).lookup "url"
      = some (Json.str "https://httpbin.org/get") := by
  refine ⟨(build_payload_cmd_and_params "request.get" _).1, ?_⟩
  have h := (build_payload_cmd_and_params "request.get"
    [("url", Json.str "https://httpbin.org/get")]).2 "url" (by decide)
  rw [h]
  rfl

/-- Claim C2: when the caller parameters themselves contain a `cmd` key, the
inserted command value wins. -/
theorem build_payload_cmd_overwrites (cmd : String) (fields : List (String × Json))
    (v : Json) (_h : fields.lookup "cmd" = some v) :
    (build_payload cmd (Json.obj fields)).lookup "cmd" = some (Json.str cmd) := by
  simp [build_payload, Json.asObject, lookup_insertKey_self]

/-- Witness for C2: a caller-supplied `cmd` value is overwritten. -/
theorem build_payload_cmd_overwrites_witness :
    (build_payload "request.get" (Json.obj [("cmd", Json.str "evil")])).lookup "cmd"
      = some (Json.str "request.get") :=
  build_payload_cmd_overwrites "request.get" [("cmd", Json.str "evil")]
    (Json.str "evil") rfl

/-- Lines 28-43 of main.rs: the `Solution` struct. Every field is an
Option; serde renames give the JSON key for each field. -/
structure Solution where
  verified : Option Bool
  response : Option String
  status_code : Option Int
  current_url : Option String
  user_agent : Option String
  cookie_string : Option String
  screenshot : Option String
  javascript_return : Option (List Json)

/-- Lines 45-53 of main.rs: the `ScrappeyResponse` envelope struct. -/
structure ScrappeyResponse where
  solution : Option Solution
  time_elapsed : Option Int
  data : Option String
  session : Option String
  error : Option String

/-- serde deserialization of `bool`. -/
def decodeBool : Json → Except String Bool
  | .bool b => .ok b
  | _ => .error "invalid type: expected a boolean"

/-- serde deserialization of `String`. -/
def decodeStr : Json → Except String String
  | .str s => .ok s
  | _ => .error "invalid type: expected a string"

/-- serde deserialization of `i32`: an integral JSON number in i32 range. -/
def decodeI32 : Json → Except String Int
  | .num n =>
      if -(2 ^ 31) ≤ n ∧ n < 2 ^ 31 then .ok n
      else .error "number out of range for i32"
  | _ => .error "invalid type: expected a number"

/-- serde deserialization of `Vec<Value>`. -/
def decodeVec : Json → Except String (List Json)
  | .arr elems => .ok elems
  | _ => .error "invalid type: expected an array"

/-- serde deserialization of an `Option<T>` struct field: an absent key
and an explicit null both give none, any other value must decode as T. -/
def decodeOptField (dec : Json → Except String α) : Option Json → Except String (Option α)
  | none => .ok none
  | some .null => .ok none
  | some v => (dec v).map some

/-- serde deserialization of `Solution` (derive(Deserialize)): the input
must be an object; each known key is decoded by field type; unknown keys
are ignored. -/
def decodeSolution : Json → Except String Solution
  | .obj fields => do
      let verified ← decodeOptField decodeBool (fields.lookup "verified")
      let response ← decodeOptField decodeStr (fields.lookup "response")
      let status_code ← decodeOptField decodeI32 (fields.lookup "statusCode")
      let current_url ← decodeOptField decodeStr (fields.lookup "currentUrl")
      let user_agent ← decodeOptField decodeStr (fields.lookup "userAgent")
      let cookie_string ← decodeOptField decodeStr (fields.lookup "cookieString")
      let screenshot ← decodeOptField decodeStr (fields.lookup "screenshot")
      let javascript_return ← decodeOptField decodeVec (fields.lookup "javascriptReturn")
      return ⟨verified, response, status_code, current_url, user_agent,
              cookie_string, screenshot, javascript_return⟩
  | _ => .error "invalid type: expected an object for Solution"

/-- serde deserialization of `ScrappeyResponse` (derive(Deserialize)). -/
def decodeScrappeyResponse : Json → Except String ScrappeyResponse
  | .obj fields => do
      let solution ← decodeOptField decodeSolution (fields.lookup "solution")
      let time_elapsed ← decodeOptField decodeI32 (fields.lookup "timeElapsed")
      let data ← decodeOptField decodeStr (fields.lookup "data")
      let session ← decodeOptField decodeStr (fields.lookup "session")
      let error ← decodeOptField decodeStr (fields.lookup "error")
      return ⟨solution, time_elapsed, data, session, error⟩
  | _ => .error "invalid type: expected an object for ScrappeyResponse"

/-- The JSON keys the `Solution` decoder recognizes. -/
def solutionKeys : List String :=
  ["verified", "response", "statusCode", "currentUrl", "userAgent",
   "cookieString", "screenshot", "javascriptReturn"]

/-- The JSON keys the `ScrappeyResponse` decoder recognizes. -/
def responseKeys : List String :=
  ["solution", "timeElapsed", "data", "session", "error"]

/-- Build an object field list from optional field values: a key appears
exactly when its value is present. Used to quantify over all well-formed
inputs in the decoding claims. -/
def fieldsOf : List (String × Option Json) → List (String × Json)
  | [] => []
  | (_, none) :: rest => fieldsOf rest
  | (k, some v) :: rest => (k, v) :: fieldsOf rest

/-- The field list of a well-formed `solution` object: any subset of the
known keys, each with a value of the field type, followed by arbitrary
further fields under other keys. -/
def solutionJsonFields (verified : Option Bool) (response : Option String)
    (status_code : Option Int) (current_url user_agent cookie_string screenshot : Option String)
    (javascript_return : Option (List Json)) (extra : List (String × Json)) :
    List (String × Json) :=
  fieldsOf
    [("verified", verified.map Json.bool),
     ("response", response.map Json.str),
     ("statusCode", status_code.map Json.num),
     ("currentUrl", current_url.map Json.str),
     ("userAgent", user_agent.map Json.str),
     ("cookieString", cookie_string.map Json.str),
     ("screenshot", screenshot.map Json.str),
     ("javascriptReturn", javascript_return.map Json.arr)] ++ extra

theorem lookup_eq_none_of_keys (l : List (String × Json)) (k : String)
    (h : ∀ p ∈ l, p.1 ≠ k) : l.lookup k = none := by
  induction l with
  | nil => rfl
  | cons hd tl ih =>
      obtain ⟨k0, v0⟩ := hd
      have hk0 : (k == k0) = false := by
        have := h (k0, v0) (List.mem_cons_self _ _)
        simp at this
        simp [Ne.symm this]
      have htl : List.lookup k tl = none :=
        ih fun p hp => h p (List.mem_cons_of_mem _ hp)
      simp only [List.lookup, hk0]
      exact htl

theorem lookup_append_json (l1 l2 : List (String × Json)) (k : String) :
    (l1 ++ l2).lookup k = (l1.lookup k).or (l2.lookup k) := by
  induction l1 with
  | nil => simp [List.lookup]
  | cons hd tl ih =>
      obtain ⟨k0, v0⟩ := hd
      cases h : (k == k0) <;> simp [List.lookup, h, ih]

theorem lookup_fieldsOf_eq_none (l : List (String × Option Json)) (k : String)
    (h : ∀ p ∈ l, p.1 ≠ k) : (fieldsOf l).lookup k = none := by
  induction l with
  | nil => rfl
  | cons hd tl ih =>
      obtain ⟨k0, o0⟩ := hd
      have hk0 : (k == k0) = false := by
        have := h (k0, o0) (List.mem_cons_self _ _)
        simp at this
        simp [Ne.symm this]
      have htl := ih fun p hp => h p (List.mem_cons_of_mem _ hp)
      cases o0 with
      | none => simpa [fieldsOf] using htl
      | some v => simpa [fieldsOf, List.lookup, hk0] using htl

theorem lookup_fieldsOf_of_mem (l : List (String × Option Json)) (k : String)
    (o : Option Json) (hmem : (k, o) ∈ l) (hnd : (l.map Prod.fst).Nodup) :
    (fieldsOf l).lookup k = o := by
  induction l with
  | nil => simp at hmem
  | cons hd tl ih =>
      obtain ⟨k0, o0⟩ := hd
      rcases List.mem_cons.mp hmem with heq | htl
      · obtain ⟨hk, ho⟩ := Prod.mk.injEq .. ▸ heq
        subst hk; subst ho
        cases o with
        | none =>
            have hnone : (fieldsOf tl).lookup k = none := by
              apply lookup_fieldsOf_eq_none
              intro p hp hpk
              have hkeys : k ∈ tl.map Prod.fst :=
                hpk ▸ List.mem_map_of_mem Prod.fst hp
              exact (List.nodup_cons.mp hnd).1 hkeys
            simpa [fieldsOf] using hnone
        | some v =>
            simp [fieldsOf, List.lookup]
      · have hkmem : k ∈ tl.map Prod.fst := List.mem_map_of_mem Prod.fst htl
        have hk0 : k ≠ k0 := fun hkk => (List.nodup_cons.mp hnd).1 (hkk ▸ hkmem)
        have hb : (k == k0) = false := by simp [hk0]
        have := ih htl (List.nodup_cons.mp hnd).2
        cases o0 with
        | none => simpa [fieldsOf] using this
        | some v => simpa [fieldsOf, List.lookup, hb] using this

theorem nodup_keys_of_eq (l : List (String × Option Json)) (ks : List String)
    (h : l.map Prod.fst = ks) (hk : ks.Nodup) : (l.map Prod.fst).Nodup := h ▸ hk

theorem decodeOptField_bool (o : Option Bool) :
    decodeOptField decodeBool (o.map Json.bool) = .ok o := by
  cases o <;> rfl

theorem decodeOptField_str (o : Option String) :
    decodeOptField decodeStr (o.map Json.str) = .ok o := by
  cases o <;> rfl

theorem decodeOptField_vec (o : Option (List Json)) :
    decodeOptField decodeVec (o.map Json.arr) = .ok o := by
  cases o <;> rfl

theorem decodeOptField_num (o : Option Int)
    (h : ∀ n ∈ o, -(2 ^ 31) ≤ n ∧ n < 2 ^ 31) :
    decodeOptField decodeI32 (o.map Json.num) = .ok o := by
  cases o with
  | none => rfl
  | some n =>
      have hn := h n rfl
      have hd : decodeI32 (Json.num n) = .ok n := by
        show (if -(2 ^ 31) ≤ n ∧ n < 2 ^ 31 then Except.ok n
              else Except.error "number out of range for i32") = Except.ok n
        rw [if_pos hn]
      rw [show decodeOptField decodeI32 (Option.map Json.num (some n))
            = (decodeI32 (Json.num n)).map some from rfl, hd]
      rfl

theorem decodeSolution_solutionJsonFields
    (verified : Option Bool) (response : Option String) (status_code : Option Int)
    (current_url user_agent cookie_string screenshot : Option String)
    (javascript_return : Option (List Json)) (extra : List (String × Json))
    (hextra : ∀ p ∈ extra, p.1 ∉ solutionKeys)
    (hsc : ∀ n ∈ status_code, -(2 ^ 31) ≤ n ∧ n < 2 ^ 31) :
    decodeSolution (Json.obj (solutionJsonFields verified response status_code
        current_url user_agent cookie_string screenshot javascript_return extra))
      = .ok ⟨verified, response, status_code, current_url, user_agent,
             cookie_string, screenshot, javascript_return⟩ := by
  have hex : ∀ k ∈ solutionKeys, extra.lookup k = none := by
    intro k hk
    apply lookup_eq_none_of_keys
    intro p hp hpk
    exact hextra p hp (hpk ▸ hk)
  have hlook : ∀ (k : String) (o : Option Json),
      (k, o) ∈ [("verified", verified.map Json.bool),
                ("response", response.map Json.str),
                ("statusCode", status_code.map Json.num),
                ("currentUrl", current_url.map Json.str),
                ("userAgent", user_agent.map Json.str),
                ("cookieString", cookie_string.map Json.str),
                ("screenshot", screenshot.map Json.str),
                ("javascriptReturn", javascript_return.map Json.arr)] →
      k ∈ solutionKeys →
      (solutionJsonFields verified response status_code current_url user_agent
        cookie_string screenshot javascript_return extra).lookup k = o := by
    intro k o hmem hk
    unfold solutionJsonFields
    rw [lookup_append_json,
        lookup_fieldsOf_of_mem _ _ _ hmem
          (nodup_keys_of_eq _ solutionKeys rfl (by decide)),
        hex k hk]
    cases o <;> rfl
  simp only [decodeSolution]
  rw [hlook "verified" (verified.map Json.bool) (by simp) (by decide),
      hlook "response" (response.map Json.str) (by simp) (by decide),
      hlook "statusCode" (status_code.map Json.num) (by simp) (by decide),
      hlook "currentUrl" (current_url.map Json.str) (by simp) (by decide),
      hlook "userAgent" (user_agent.map Json.str) (by simp) (by decide),
      hlook "cookieString" (cookie_string.map Json.str) (by simp) (by decide),
      hlook "screenshot" (screenshot.map Json.str) (by simp) (by decide),
      hlook "javascriptReturn" (javascript_return.map Json.arr) (by simp) (by decide)]
  simp only [decodeOptField_bool, decodeOptField_str, decodeOptField_vec,
             decodeOptField_num _ hsc]
  rfl

theorem decodeScrappeyResponse_fields (solJ : Option Json) (solV : Option Solution)
    (te : Option Int) (dataS se er : Option String) (eextra : List (String × Json))
    (hsol : decodeOptField decodeSolution solJ = .ok solV)
    (hte : ∀ n ∈ te, -(2 ^ 31) ≤ n ∧ n < 2 ^ 31)
    (heextra : ∀ p ∈ eextra, p.1 ∉ responseKeys) :
    decodeScrappeyResponse (Json.obj (fieldsOf
      [("solution", solJ), ("timeElapsed", te.map Json.num),
       ("data", dataS.map Json.str), ("session", se.map Json.str),
       ("error", er.map Json.str)] ++ eextra))
    = .ok ⟨solV, te, dataS, se, er⟩ := by
  have hex : ∀ k ∈ responseKeys, eextra.lookup k = none := by
    intro k hk
    apply lookup_eq_none_of_keys
    intro p hp hpk
    exact heextra p hp (hpk ▸ hk)
  have hlook : ∀ (k : String) (o : Option Json),
      (k, o) ∈ [("solution", solJ), ("timeElapsed", te.map Json.num),
                ("data", dataS.map Json.str), ("session", se.map Json.str),
                ("error", er.map Json.str)] →
      k ∈ responseKeys →
      ((fieldsOf [("solution", solJ), ("timeElapsed", te.map Json.num),
         ("data", dataS.map Json.str), ("session", se.map Json.str),
         ("error", er.map Json.str)] ++ eextra)).lookup k = o := by
    intro k o hmem hk
    rw [lookup_append_json,
        lookup_fieldsOf_of_mem _ _ _ hmem
          (nodup_keys_of_eq _ responseKeys rfl (by decide)),
        hex k hk]
    cases o <;> rfl
  simp only [decodeScrappeyResponse]
  rw [hlook "solution" solJ (by simp) (by decide),
      hlook "timeElapsed" (te.map Json.num) (by simp) (by decide),
      hlook "data" (dataS.map Json.str) (by simp) (by decide),
      hlook "session" (se.map Json.str) (by simp) (by decide),
      hlook "error" (er.map Json.str) (by simp) (by decide),
      hsol]
  simp only [decodeOptField_str, decodeOptField_num _ hte]
  rfl

/-- The process environment: variable name to optional value. -/
def Env : Type := String → Option String

/-- One call of `std::env::var`, with the trace of variable names read. -/
def env_var (env : Env) (name : String) : Option String × List String :=
  (env name, [name])

/-- Lines 19-21 of main.rs: `get_api_key` reads SCRAPPEY_API_KEY from the
environment and falls back to the placeholder when it is unset. The
second component is the trace of environment reads this call performs. -/
def get_api_key (env : Env) : String × List String :=
  match env_var env "SCRAPPEY_API_KEY" with
  | (some v, reads) => (v, reads)
  | (none, reads) => ("YOUR_API_KEY", reads)

/-- Lines 23-25 of main.rs. -/
def get_api_url : String := "https://publisher.scrappey.com/api/v1"

/-- An outgoing HTTP request as reqwest sees it: method, full URL,
headers, JSON body. -/
structure HttpRequest where
  method : String
  url : String
  headers : List (String × String)
  body : Json

/-- The two local failure kinds of `scrappey_request` (the boxed error of
lines 60, 72 and 74): a transport failure from `send()` and a decode
failure from `response.json()`. -/
inductive ClientError where
  | transport (msg : String)
  | decode (msg : String)

/-- The network as an oracle: `Except.error msg` is a transport failure
(connection failure or timeout expiry inside `send()`), `ok none` is a
response whose body is not valid JSON, `ok (some j)` is a response whose
body parses as the JSON value `j`. -/
def Transport : Type := HttpRequest → Except String (Option Json)

/-- Everything observable about one `scrappey_request` call: its returned
value, the request it handed to the transport, and the environment
variables it read. -/
structure SendOutcome where
  result : Except ClientError ScrappeyResponse
  request : HttpRequest
  env_reads : List String

/-- Lines 56-76 of main.rs: `scrappey_request`. Reads the URL and the API
key, merges `cmd` into the parameters, POSTs the JSON payload to
`<api_url>?key=<api_key>` with a Content-Type header, and deserializes
the response body as a `ScrappeyResponse`. -/
def scrappey_request (tp : Transport) (env : Env) (cmd : String) (data : Json) :
    SendOutcome :=
  let api_url := get_api_url
  let keyRead := get_api_key env
  let payload := build_payload cmd data
  let req : HttpRequest :=
    { method := "POST"
      url := api_url ++ "?key=" ++ keyRead.1
      headers := [("Content-Type", "application/json")]
      body := Json.obj payload }
  let result : Except ClientError ScrappeyResponse :=
    match tp req with
    | .error e => .error (.transport e)
    | .ok none => .error (.decode "response body is not valid JSON")
    | .ok (some j) =>
        match decodeScrappeyResponse j with
        | .error e => .error (.decode e)
        | .ok r => .ok r
  { result := result, request := req, env_reads := keyRead.2 }

/-- Lines 243-245 of main.rs: the reqwest client is built with a request
timeout of 300 seconds. -/
structure ClientConfig where
  timeout_secs : Nat

/-- The configuration `main` builds its client with. -/
def main_client_config : ClientConfig :=
  { timeout_secs := 300 }

/-- Lines 111-158 of main.rs: the session flow. Creates a session,
extracts the session id with `unwrap_or_default` (empty string when the
envelope has no session field), issues a request carrying it, then
destroys it. The second component is the list of requests handed to the
transport, in order; the `?` operator stops the flow on a local error. -/
def session_example (tp : Transport) (env : Env) :
    Except ClientError Unit × List HttpRequest :=
  let o1 := scrappey_request tp env "sessions.create"
    (Json.obj [("proxyCountry", Json.str "UnitedStates"),
               ("premiumProxy", Json.bool true)])
  match o1.result with
  | .error e => (.error e, [o1.request])
  | .ok session_result =>
      let session_id := session_result.session.getD ""
      let o2 := scrappey_request tp env "request.get"
        (Json.obj [("url", Json.str "https://httpbin.org/get"),
                   ("session", Json.str session_id)])
      match o2.result with
      | .error e => (.error e, [o1.request, o2.request])
      | .ok _ =>
          let o3 := scrappey_request tp env "sessions.destroy"
            (Json.obj [("session", Json.str session_id)])
          match o3.result with
          | .error e => (.error e, [o1.request, o2.request, o3.request])
          | .ok _ => (.ok (), [o1.request, o2.request, o3.request])

theorem scrappey_request_result (tp : Transport) (env : Env) (cmd : String) (data : Json) :
    (scrappey_request tp env cmd data).result =
      match tp (scrappey_request tp env cmd data).request with
      | .error e => .error (.transport e)
      | .ok none => .error (.decode "response body is not valid JSON")
      | .ok (some j) =>
          match decodeScrappeyResponse j with
          | .error e => .error (.decode e)
          | .ok r => .ok r := rfl

/-- Claim C3 is false as stated: the environment variable is read again
on every send call, not once for the lifetime of the client. Two
sequential calls of scrappey_request over the same configuration perform
two reads of SCRAPPEY_API_KEY, so the total read count is not one. -/
theorem api_key_env_read_twice_for_two_sends :
    ((scrappey_request (fun _ => Except.error "no network") (fun _ => none)
        "request.get" (Json.obj [])).env_reads
      ++ (scrappey_request (fun _ => Except.error "no network") (fun _ => none)
        "request.post" (Json.obj [])).env_reads)
      = ["SCRAPPEY_API_KEY", "SCRAPPEY_API_KEY"] ∧
    ¬ ((scrappey_request (fun _ => Except.error "no network") (fun _ => none)
        "request.get" (Json.obj [])).env_reads
      ++ (scrappey_request (fun _ => Except.error "no network") (fun _ => none)
        "request.post" (Json.obj [])).env_reads).length = 1 := by
  constructor
  · rfl
  · decide

/-- Claim C3, amended: each scrappey_request call reads SCRAPPEY_API_KEY
exactly once, and when the variable is unset the placeholder key
YOUR_API_KEY is what reaches the request URL. -/
theorem api_key_read_once_per_send (tp : Transport) (env : Env) (cmd : String)
    (data : Json) :
    (scrappey_request tp env cmd data).env_reads = ["SCRAPPEY_API_KEY"] ∧
    (env "SCRAPPEY_API_KEY" = none →
      (scrappey_request tp env cmd data).request.url
        = "https://publisher.scrappey.com/api/v1?key=YOUR_API_KEY") := by
  constructor
  · cases h : env "SCRAPPEY_API_KEY" <;>
      simp [scrappey_request, get_api_key, env_var, h]
  · intro h
    simp [scrappey_request, get_api_key, env_var, h, get_api_url]

/-- Witness for the amended C3 at a concrete transport and empty
environment. -/
theorem api_key_read_once_per_send_witness :
    (scrappey_request (fun _ => Except.error "refused") (fun _ => none)
        "request.get" (Json.obj [])).env_reads = ["SCRAPPEY_API_KEY"] ∧
    (scrappey_request (fun _ => Except.error "refused") (fun _ => none)
        "request.get" (Json.obj [])).request.url
      = "https://publisher.scrappey.com/api/v1?key=YOUR_API_KEY" :=
  ⟨(api_key_read_once_per_send _ _ _ _).1,
   (api_key_read_once_per_send _ _ _ _).2 rfl⟩

/-- Claim C4: every scrappey_request call issues a POST to exactly
the URL obtained by appending the API key to the fixed endpoint, with a
Content-Type header of application/json and the merged payload as JSON
body; moreover the outcome depends on the transport only through its
value at that single request. -/
theorem send_request_shape (tp tp2 : Transport) (env : Env) (cmd : String)
    (data : Json) :
    (scrappey_request tp env cmd data).request.method = "POST" ∧
    (scrappey_request tp env cmd data).request.url
      = "https://publisher.scrappey.com/api/v1?key=" ++ (get_api_key env).1 ∧
    (scrappey_request tp env cmd data).request.headers
      = [("Content-Type", "application/json")] ∧
    (scrappey_request tp env cmd data).request.body
      = Json.obj (build_payload cmd data) ∧
    (tp (scrappey_request tp env cmd data).request
        = tp2 (scrappey_request tp env cmd data).request →
      (scrappey_request tp env cmd data).result
        = (scrappey_request tp2 env cmd data).result) := by
  refine ⟨rfl, rfl, rfl, rfl, ?_⟩
  intro h
  simp only [scrappey_request] at h ⊢
  rw [h]

/-- Witness for C4 at a concrete input, with two syntactically different
transports that agree at the issued request. -/
theorem send_request_shape_witness :
    (scrappey_request (fun _ => Except.ok none) (fun _ => none) "request.get"
        (Json.obj [("url", Json.str "https://httpbin.org/get")])).request.method
      = "POST" ∧
    (scrappey_request (fun _ => Except.ok none) (fun _ => none) "request.get"
        (Json.obj [("url", Json.str "https://httpbin.org/get")])).result
      = (scrappey_request (fun r => if r.method = "POST" then Except.ok none
            else Except.error "unused") (fun _ => none) "request.get"
        (Json.obj [("url", Json.str "https://httpbin.org/get")])).result :=
  ⟨(send_request_shape (fun _ => Except.ok none)
      (fun r => if r.method = "POST" then Except.ok none else Except.error "unused")
      (fun _ => none) "request.get"
      (Json.obj [("url", Json.str "https://httpbin.org/get")])).1,
   (send_request_shape (fun _ => Except.ok none)
      (fun r => if r.method = "POST" then Except.ok none else Except.error "unused")
      (fun _ => none) "request.get"
      (Json.obj [("url", Json.str "https://httpbin.org/get")])).2.2.2.2 rfl⟩

/-- Claim C7: a response body that is not valid JSON, or that does not
decode as the envelope shape, makes scrappey_request return a decode
error, never a defaulted Ok. -/
theorem bad_body_decode_error (tp : Transport) (env : Env) (cmd : String)
    (data : Json) :
    (tp (scrappey_request tp env cmd data).request = .ok none →
      (scrappey_request tp env cmd data).result
        = .error (.decode "response body is not valid JSON")) ∧
    (∀ (j : Json) (msg : String),
      tp (scrappey_request tp env cmd data).request = .ok (some j) →
      decodeScrappeyResponse j = .error msg →
      (scrappey_request tp env cmd data).result = .error (.decode msg)) := by
  constructor
  · intro h
    rw [scrappey_request_result, h]
  · intro j msg hj hdec
    rw [scrappey_request_result, hj]
    simp only [hdec]

/-- Witness for C7: a non-JSON body and a JSON body of the wrong shape
both produce decode errors at concrete inputs. -/
theorem bad_body_decode_error_witness :
    (scrappey_request (fun _ => Except.ok none) (fun _ => none) "request.get"
        (Json.obj [])).result
      = .error (.decode "response body is not valid JSON") ∧
    (scrappey_request (fun _ => Except.ok (some (Json.str "oops"))) (fun _ => none)
        "request.get" (Json.obj [])).result
      = .error (.decode "invalid type: expected an object for ScrappeyResponse") :=
  ⟨(bad_body_decode_error (fun _ => Except.ok none) (fun _ => none)
      "request.get" (Json.obj [])).1 rfl,
   (bad_body_decode_error (fun _ => Except.ok (some (Json.str "oops"))) (fun _ => none)
      "request.get" (Json.obj [])).2 (Json.str "oops")
      "invalid type: expected an object for ScrappeyResponse" rfl rfl⟩

/-- Claim C8: main builds its client with a 300 second request timeout,
and a transport-level failure (which is how an expired timeout surfaces
from send()) makes the call return a transport error. -/
theorem timeout_config_and_transport_error (tp : Transport) (env : Env)
    (cmd : String) (data : Json) (msg : String)
    (h : tp (scrappey_request tp env cmd data).request = .error msg) :
    main_client_config.timeout_secs = 300 ∧
    (scrappey_request tp env cmd data).result = .error (.transport msg) := by
  refine ⟨rfl, ?_⟩
  rw [scrappey_request_result, h]

/-- Witness for C8 at a concrete timed-out transport. -/
theorem timeout_config_and_transport_error_witness :
    main_client_config.timeout_secs = 300 ∧
    (scrappey_request (fun _ => Except.error "operation timed out") (fun _ => none)
        "request.get" (Json.obj [("url", Json.str "https://example.com")])).result
      = .error (.transport "operation timed out") :=
  timeout_config_and_transport_error _ _ _ _ _ rfl

/-- Claim C9: when the data argument is not a JSON object, the call does
not fail: the body degrades to the object holding only the cmd field, and
the whole outcome is the one of sending an empty parameter map, so every
caller-supplied value is discarded. -/
theorem non_object_data_discarded (tp : Transport) (env : Env) (cmd : String)
    (data : Json) (h : data.asObject = none) :
    (scrappey_request tp env cmd data).request.body
      = Json.obj [("cmd", Json.str cmd)] ∧
    scrappey_request tp env cmd data = scrappey_request tp env cmd (Json.obj []) := by
  have hp : build_payload cmd data = [("cmd", Json.str cmd)] := by
    simp [build_payload, h, insertKey]
  constructor
  · show Json.obj (build_payload cmd data) = _
    rw [hp]
  · simp only [scrappey_request]
    rw [show build_payload cmd data = build_payload cmd (Json.obj []) from by
      rw [hp]; rfl]

/-- Witness for C9 at a string data argument. -/
theorem non_object_data_discarded_witness :
    (scrappey_request (fun _ => Except.ok none) (fun _ => none) "request.get"
        (Json.str "not an object")).request.body
      = Json.obj [("cmd", Json.str "request.get")] ∧
    scrappey_request (fun _ => Except.ok none) (fun _ => none) "request.get"
        (Json.str "not an object")
      = scrappey_request (fun _ => Except.ok none) (fun _ => none) "request.get"
        (Json.obj []) :=
  non_object_data_discarded _ _ _ _ rfl

/-- Claim C5: a well-formed envelope with data success and a nested
solution object, any subset of known solution keys present with
well-typed values, and arbitrary unknown keys at both levels, decodes to
exactly that subset: present keys give some, omitted keys give none, and
unknown keys are ignored rather than failing. -/
theorem decode_success_envelope
    (verified : Option Bool) (response : Option String) (status_code : Option Int)
    (current_url user_agent cookie_string screenshot : Option String)
    (javascript_return : Option (List Json)) (extra eextra : List (String × Json))
    (hextra : ∀ p ∈ extra, p.1 ∉ solutionKeys)
    (heextra : ∀ p ∈ eextra, p.1 ∉ responseKeys)
    (hsc : ∀ n ∈ status_code, -(2 ^ 31) ≤ n ∧ n < 2 ^ 31) :
    decodeScrappeyResponse (Json.obj
      (("solution", Json.obj (solutionJsonFields verified response status_code
          current_url user_agent cookie_string screenshot javascript_return extra))
        :: ("data", Json.str "success") :: eextra))
      = .ok ⟨some ⟨verified, response, status_code, current_url, user_agent,
                   cookie_string, screenshot, javascript_return⟩,
             none, some "success", none, none⟩ := by
  have hsolution := decodeSolution_solutionJsonFields verified response status_code
    current_url user_agent cookie_string screenshot javascript_return extra hextra hsc
  have hopt : decodeOptField decodeSolution
      (some (Json.obj (solutionJsonFields verified response status_code
        current_url user_agent cookie_string screenshot javascript_return extra)))
      = .ok (some ⟨verified, response, status_code, current_url, user_agent,
                   cookie_string, screenshot, javascript_return⟩) := by
    rw [show decodeOptField decodeSolution
          (some (Json.obj (solutionJsonFields verified response status_code
            current_url user_agent cookie_string screenshot javascript_return extra)))
        = (decodeSolution (Json.obj (solutionJsonFields verified response status_code
            current_url user_agent cookie_string screenshot javascript_return
            extra))).map some from rfl, hsolution]
    rfl
  exact decodeScrappeyResponse_fields
    (some (Json.obj (solutionJsonFields verified response status_code current_url
      user_agent cookie_string screenshot javascript_return extra)))
    (some ⟨verified, response, status_code, current_url, user_agent,
           cookie_string, screenshot, javascript_return⟩)
    none (some "success") none none eextra hopt (by simp) heextra

/-- Witness for C5 at a concrete envelope holding a strict subset of the
solution keys plus an unknown key at each level. -/
theorem decode_success_envelope_witness :
    decodeScrappeyResponse (Json.obj
      (("solution", Json.obj (solutionJsonFields (some true) (some "hello")
          (some 200) (some "https://httpbin.org/get") none none none none
          [("unknownSolutionKey", Json.num 7)]))
        :: ("data", Json.str "success")
        :: [("unknownEnvelopeKey", Json.str "ignored")]))
      = .ok ⟨some ⟨some true, some "hello", some 200,
                   some "https://httpbin.org/get", none, none, none, none⟩,
             none, some "success", none, none⟩ :=
  decode_success_envelope (some true) (some "hello") (some 200)
    (some "https://httpbin.org/get") none none none none
    [("unknownSolutionKey", Json.num 7)] [("unknownEnvelopeKey", Json.str "ignored")]
    (by decide) (by decide)
    (by intro n hn; simp at hn; subst hn; decide)

/-- Claim C6: an envelope carrying an error field and no data field
decodes successfully, scrappey_request returns Ok on it (a remote logical
error is not a local failure), and the error string is retrievable from
the returned envelope. -/
theorem remote_error_is_ok (e : String) (eextra : List (String × Json))
    (tp : Transport) (env : Env) (cmd : String) (data : Json)
    (heextra : ∀ p ∈ eextra, p.1 ∉ responseKeys)
    (htp : tp (scrappey_request tp env cmd data).request
      = .ok (some (Json.obj (("error", Json.str e) :: eextra)))) :
    decodeScrappeyResponse (Json.obj (("error", Json.str e) :: eextra))
      = .ok ⟨none, none, none, none, some e⟩ ∧
    (scrappey_request tp env cmd data).result
      = .ok ⟨none, none, none, none, some e⟩ ∧
    (⟨none, none, none, none, some e⟩ : ScrappeyResponse).error = some e := by
  have hdec : decodeScrappeyResponse (Json.obj (("error", Json.str e) :: eextra))
      = .ok ⟨none, none, none, none, some e⟩ :=
    decodeScrappeyResponse_fields none none none none none (some e) eextra rfl
      (by simp) heextra
  refine ⟨hdec, ?_, rfl⟩
  rw [scrappey_request_result, htp]
  simp only [hdec]

/-- Witness for C6 at a concrete error envelope with an extra unknown
key. -/
theorem remote_error_is_ok_witness :
    decodeScrappeyResponse (Json.obj (("error", Json.str "not enough balance")
        :: [("extraKey", Json.null)]))
      = .ok ⟨none, none, none, none, some "not enough balance"⟩ ∧
    (scrappey_request
        (fun _ => Except.ok (some (Json.obj (("error", Json.str "not enough balance")
          :: [("extraKey", Json.null)]))))
        (fun _ => none) "request.get" (Json.obj [])).result
      = .ok ⟨none, none, none, none, some "not enough balance"⟩ ∧
    (⟨none, none, none, none, some "not enough balance"⟩ : ScrappeyResponse).error
      = some "not enough balance" :=
  remote_error_is_ok "not enough balance" [("extraKey", Json.null)] _ _ _ _
    (by decide) rfl

/-- Claim C10: when the sessions.create envelope has no session field,
the session flow keeps going with the empty string as session id: the
request.get and sessions.destroy requests are both issued and both carry
a session parameter equal to the empty string. -/
theorem session_missing_defaults_empty (tp : Transport) (env : Env)
    (r1 r2 : ScrappeyResponse)
    (h1 : (scrappey_request tp env "sessions.create"
        (Json.obj [("proxyCountry", Json.str "UnitedStates"),
                   ("premiumProxy", Json.bool true)])).result = .ok r1)
    (hs : r1.session = none)
    (h2 : (scrappey_request tp env "request.get"
        (Json.obj [("url", Json.str "https://httpbin.org/get"),
                   ("session", Json.str "")])).result = .ok r2) :
    (session_example tp env).2
      = [(scrappey_request tp env "sessions.create"
            (Json.obj [("proxyCountry", Json.str "UnitedStates"),
                       ("premiumProxy", Json.bool true)])).request,
         (scrappey_request tp env "request.get"
            (Json.obj [("url", Json.str "https://httpbin.org/get"),
                       ("session", Json.str "")])).request,
         (scrappey_request tp env "sessions.destroy"
            (Json.obj [("session", Json.str "")])).request] ∧
    (build_payload "request.get"
        (Json.obj [("url", Json.str "https://httpbin.org/get"),
                   ("session", Json.str "")])).lookup "session"
      = some (Json.str "") ∧
    (build_payload "sessions.destroy"
        (Json.obj [("session", Json.str "")])).lookup "session"
      = some (Json.str "") := by
  refine ⟨?_, rfl, rfl⟩
  simp only [session_example, h1, hs, Option.getD_none, h2]
  cases hres : (scrappey_request tp env "sessions.destroy"
      (Json.obj [("session", Json.str "")])).result <;>
    simp [hres]

/-- Witness for C10: a transport that always answers with an empty
envelope, whose sessions.create response therefore has no session
field. -/
theorem session_missing_defaults_empty_witness :
    (session_example (fun _ => Except.ok (some (Json.obj []))) (fun _ => none)).2
      = [(scrappey_request (fun _ => Except.ok (some (Json.obj []))) (fun _ => none)
            "sessions.create"
            (Json.obj [("proxyCountry", Json.str "UnitedStates"),
                       ("premiumProxy", Json.bool true)])).request,
         (scrappey_request (fun _ => Except.ok (some (Json.obj []))) (fun _ => none)
            "request.get"
            (Json.obj [("url", Json.str "https://httpbin.org/get"),
                       ("session", Json.str "")])).request,
         (scrappey_request (fun _ => Except.ok (some (Json.obj []))) (fun _ => none)
            "sessions.destroy"
            (Json.obj [("session", Json.str "")])).request] ∧
    (build_payload "request.get"
        (Json.obj [("url", Json.str "https://httpbin.org/get"),
                   ("session", Json.str "")])).lookup "session"
      = some (Json.str "") ∧
    (build_payload "sessions.destroy"
        (Json.obj [("session", Json.str "")])).lookup "session"
      = some (Json.str "") :=
  session_missing_defaults_empty (fun _ => Except.ok (some (Json.obj [])))
    (fun _ => none) ⟨none, none, none, none, none⟩ ⟨none, none, none, none, none⟩
    rfl rfl rfl

end Scrappey
